import Mathlib

/-!
Verification of the validation rule engine of the repository
(`src/validation/validators.ts`, `src/validation/validators-with-translation.ts`
and the `getValidationMethod` dispatcher).

The validators are Yup test chains evaluated against a field value and the
snapshot of sibling field values (`this.parent`).  We embed the test logic as
pure Lean functions over an explicit model of JavaScript primitive values:

  * `JSNumber` models JS numbers with integral/decimal values as rationals and
    explicit `nan` / infinities (floating-point rounding is not modelled; the
    engine only compares values, and every comparison the rules perform is
    exact on the rationals involved).
  * `JSValue` models the primitive values a form field can hold: strings,
    numbers, booleans, `null` and `undefined`.
  * `FormValues` is the `this.parent` snapshot, a field-name/value association
    list; reading an absent key yields `undefined`, as in JS.

Each validator keeps its source name.  The `type` parameter of the source
functions only selects the Yup base schema (cast / typeError); the embedded
rules model the test chain on already-cast values, so it is dropped.
-/

namespace Validation

/-- Model of a JavaScript number: `NaN`, the two infinities, or a finite
value represented exactly as a rational. -/
inductive JSNumber where
  | nan : JSNumber
  | posInf : JSNumber
  | negInf : JSNumber
  | val (q : ℚ) : JSNumber
deriving DecidableEq, Repr

/-- Model of a JavaScript primitive value as held by a form field. -/
inductive JSValue where
  | str (s : String) : JSValue
  | num (n : JSNumber) : JSValue
  | boolean (b : Bool) : JSValue
  | null : JSValue
  | undef : JSValue
deriving DecidableEq, Repr

/-- The `this.parent` snapshot: field name to current value. -/
def FormValues : Type := List (String × JSValue)

/-- Property access `parent[name]`: the first binding for `name`, or
`undefined` when the key is absent (JS semantics). -/
def lookupField (parent : FormValues) (name : String) : JSValue :=
  match List.find? (fun p => p.1 == name) parent with
  | some p => p.2
  | none => JSValue.undef

/-- JS number negation (used by the unary minus of a numeric string). -/
def JSNumber.neg : JSNumber → JSNumber
  | .nan => .nan
  | .posInf => .negInf
  | .negInf => .posInf
  | .val q => .val (-q)

def JSNumber.isNan : JSNumber → Bool
  | .nan => true
  | _ => false

/-- Display of a JS number (used by `String(value)` and template literals);
for a non-integral rational we fall back to the rational display, which is
only a notational difference from JS decimal formatting and is never relied
on by a theorem. -/
def JSNumber.display : JSNumber → String
  | .nan => "NaN"
  | .posInf => "Infinity"
  | .negInf => "-Infinity"
  | .val q => if q.den = 1 then toString q.num else toString q

/-- Digit run to a natural number (base 10). -/
def natOfDigits (l : List Char) : Nat :=
  l.foldl (fun a c => a * 10 + (c.toNat - 48)) 0

/-- Hex digit run to a natural number. -/
def natOfHexDigits (l : List Char) : Nat :=
  l.foldl (fun a c =>
    a * 16 +
      (if c.isDigit then c.toNat - 48
       else if 'a' ≤ c ∧ c ≤ 'f' then c.toNat - 87
       else c.toNat - 55)) 0

def isHexDigit (c : Char) : Bool :=
  c.isDigit || ('a' ≤ c && c ≤ 'f') || ('A' ≤ c && c ≤ 'F')

def isBinDigit (c : Char) : Bool := c = '0' || c = '1'

def isOctDigit (c : Char) : Bool := '0' ≤ c && c ≤ '7'

/-- Value of the fractional digit run `l` read after a decimal point. -/
def fracOfDigits (l : List Char) : ℚ :=
  (natOfDigits l : ℚ) / ((10 : ℚ) ^ l.length)

/-- Parse the exponent part `(e|E) [+|-] digits` of a decimal literal;
`none` when `l` is empty means "no exponent". -/
def parseExponent (l : List Char) : Option ℤ :=
  match l with
  | [] => some 0
  | c :: r =>
    if c = 'e' ∨ c = 'E' then
      match r with
      | '+' :: d => if d ≠ [] ∧ d.all Char.isDigit then some (natOfDigits d : ℤ) else none
      | '-' :: d => if d ≠ [] ∧ d.all Char.isDigit then some (-(natOfDigits d : ℤ)) else none
      | d => if d ≠ [] ∧ d.all Char.isDigit then some (natOfDigits d : ℤ) else none
    else none

/-- Parse an unsigned decimal literal (ES `StrUnsignedDecimalLiteral` without
`Infinity`): `digits [. digits] [exp]` or `. digits [exp]`. -/
def parseDecimalLiteral (l : List Char) : Option ℚ :=
  let intPart := l.takeWhile Char.isDigit
  let rest := l.dropWhile Char.isDigit
  match rest with
  | [] => if intPart = [] then none else some (natOfDigits intPart : ℚ)
  | '.' :: r =>
    let fracPart := r.takeWhile Char.isDigit
    let rest2 := r.dropWhile Char.isDigit
    if intPart = [] ∧ fracPart = [] then none
    else
      match parseExponent rest2 with
      | some e => some (((natOfDigits intPart : ℚ) + fracOfDigits fracPart) * (10 : ℚ) ^ e)
      | none => none
  | r =>
    if intPart = [] then none
    else
      match parseExponent r with
      | some e => some ((natOfDigits intPart : ℚ) * (10 : ℚ) ^ e)
      | none => none

/-- Unsigned part of a numeric string: `Infinity` or a decimal literal. -/
def parseUnsignedNumeric (l : List Char) : Option JSNumber :=
  if l = "Infinity".toList then some JSNumber.posInf
  else (parseDecimalLiteral l).map JSNumber.val

/-- ES `StringNumericLiteral` body: an optionally signed decimal literal /
`Infinity`, or an unsigned non-decimal (hex/octal/binary) integer literal. -/
def parseNumericBody (l : List Char) : Option JSNumber :=
  match l with
  | '+' :: r => parseUnsignedNumeric r
  | '-' :: r => (parseUnsignedNumeric r).map JSNumber.neg
  | '0' :: c :: r =>
    if c = 'x' ∨ c = 'X' then
      if r ≠ [] ∧ r.all isHexDigit then some (JSNumber.val (natOfHexDigits r : ℚ)) else none
    else if c = 'b' ∨ c = 'B' then
      if r ≠ [] ∧ r.all isBinDigit then some (JSNumber.val (natOfDigits r : ℚ)) else none
    else if c = 'o' ∨ c = 'O' then
      if r ≠ [] ∧ r.all isOctDigit then
        some (JSNumber.val ((r.foldl (fun a d => a * 8 + (d.toNat - 48)) 0 : Nat) : ℚ))
      else none
    else parseUnsignedNumeric l
  | _ => parseUnsignedNumeric l

/-- ASCII whitespace stripped by `Number(string)` (the exotic Unicode space
code points are not modelled; no claim involves them). -/
def isJsSpace (c : Char) : Bool :=
  c = ' ' || c = '\t' || c = '\n' || c = '\r' ||
  c = Char.ofNat 11 || c = Char.ofNat 12

/-- `Number(string)`: trim whitespace; empty means `0`; otherwise parse a
numeric literal, `NaN` on failure. -/
def stringToNumber (s : String) : JSNumber :=
  let l := ((s.toList.dropWhile isJsSpace).reverse.dropWhile isJsSpace).reverse
  if l = [] then JSNumber.val 0
  else match parseNumericBody l with
    | some n => n
    | none => JSNumber.nan

/-- `ToNumber` on primitive values (`Number(value)` / numeric coercion). -/
def toNumber : JSValue → JSNumber
  | .str s => stringToNumber s
  | .num n => n
  | .boolean b => JSNumber.val (if b then 1 else 0)
  | .null => JSNumber.val 0
  | .undef => JSNumber.nan

/-- `String(value)` on primitive values. -/
def jsToString : JSValue → String
  | .str s => s
  | .num n => n.display
  | .boolean b => if b then "true" else "false"
  | .null => "null"
  | .undef => "undefined"

/-- Numeric `<` for NaN-free operands. -/
def JSNumber.ltCore : JSNumber → JSNumber → Bool
  | .val a, .val b => decide (a < b)
  | .posInf, _ => false
  | _, .posInf => true
  | _, .negInf => false
  | .negInf, _ => true
  | .nan, _ => false
  | _, .nan => false

/-- ES abstract relational comparison `a < b` on primitives: lexicographic
when both operands are strings, otherwise numeric after `ToNumber`; `none`
is the spec's *undefined* result (a NaN operand). -/
def jsLtOpt (a b : JSValue) : Option Bool :=
  match a, b with
  | .str x, .str y => some (decide (x < y))
  | _, _ =>
    let na := toNumber a
    let nb := toNumber b
    if na.isNan || nb.isNan then none
    else some (JSNumber.ltCore na nb)

/-- `a > b`: relational comparison `b < a`, *undefined* mapped to `false`. -/
def jsGt (a b : JSValue) : Bool :=
  match jsLtOpt b a with
  | some r => r
  | none => false

/-- `a <= b`: negation of `b < a`, with *undefined* mapped to `false`. -/
def jsLe (a b : JSValue) : Bool :=
  match jsLtOpt b a with
  | some r => !r
  | none => false

/-- Numeric equality under `===`: `NaN` is not equal to itself. -/
def JSNumber.strictEq : JSNumber → JSNumber → Bool
  | .nan, _ => false
  | _, .nan => false
  | .posInf, .posInf => true
  | .negInf, .negInf => true
  | .val a, .val b => decide (a = b)
  | _, _ => false

/-- Strict equality `===` on primitive values. -/
def jsStrictEq (a b : JSValue) : Bool :=
  match a, b with
  | .num x, .num y => JSNumber.strictEq x y
  | _, _ => decide (a = b)

/-- `numValue >= minValue` where `minValue` is a plain number. -/
def JSNumber.geQ (x : JSNumber) (q : ℚ) : Bool :=
  match x with
  | .nan => false
  | .posInf => true
  | .negInf => false
  | .val a => decide (q ≤ a)

/-- `numValue <= maxValue` where `maxValue` is a plain number. -/
def JSNumber.leQ (x : JSNumber) (q : ℚ) : Bool :=
  match x with
  | .nan => false
  | .posInf => false
  | .negInf => true
  | .val a => decide (a ≤ q)

/-- Display of a plain number bound inside a template-literal message. -/
def ratDisplay (q : ℚ) : String :=
  if q.den = 1 then toString q.num else toString q

/-- Result of evaluating one rule: valid, or invalid with the message and the
field path (`this.path` / `this.createError`). -/
inductive Outcome where
  | valid : Outcome
  | invalid (message : String) (path : String) : Outcome
deriving DecidableEq, Repr

def Outcome.isValid : Outcome → Bool
  | .valid => true
  | .invalid _ _ => false

/-- One gating condition (`MultipleReferenceValidatorProps`): the sibling
field at `fieldName` must be `===` to `expectedValue` for the rule to apply.
The TS type restricts `expectedValue` to `string | boolean`; the model admits
any primitive value, over which `===` is total. -/
structure Condition where
  fieldName : String
  expectedValue : JSValue
deriving DecidableEq, Repr

/-- `conditions.every(c => this.parent[c.fieldName] === c.expectedValue)`. -/
def conditionsHold (conditions : List Condition) (parent : FormValues) : Bool :=
  conditions.all (fun c => jsStrictEq (lookupField parent c.fieldName) c.expectedValue)

/-- `value !== undefined && value !== null && value !== ""` (the
`isValueProvided` check of `requiredWithReferenceValidator`). -/
def isValueProvided (value : JSValue) : Bool :=
  value != JSValue.undef && value != JSValue.null && value != JSValue.str ""

/-- `requiredWithReferenceValidator` (default-message path): the field is
required exactly when every condition matches its sibling value; an absent or
empty value then fails with the required message at `this.path`. -/
def requiredWithReferenceValidator (conditions : List Condition) (value : JSValue)
    (parent : FormValues) (path : String) : Outcome :=
  if conditionsHold conditions parent then
    if isValueProvided value then Outcome.valid
    else Outcome.invalid "This field is required." path
  else Outcome.valid

/-- The `min` test body shared by `minValidator`: `false` for an absent
value, else compare `String(value).length`. -/
def minLengthTest (minLength : ℚ) (value : JSValue) : Bool :=
  match value with
  | .undef => false
  | .null => false
  | v => decide (minLength ≤ ((jsToString v).length : ℚ))

/-- The `max` test body of `maxValidator`. -/
def maxLengthTest (maxLength : ℚ) (value : JSValue) : Bool :=
  match value with
  | .undef => false
  | .null => false
  | v => decide (((jsToString v).length : ℚ) ≤ maxLength)

/-- The test body of `minMaxValidator`. -/
def minMaxLengthTest (minLength maxLength : ℚ) (value : JSValue) : Bool :=
  match value with
  | .undef => false
  | .null => false
  | v =>
    decide (minLength ≤ ((jsToString v).length : ℚ)) &&
    decide (((jsToString v).length : ℚ) ≤ maxLength)

/-- `minValidator` (default-message path). -/
def minValidator (minLength : ℚ) (value : JSValue) (path : String) : Outcome :=
  if minLengthTest minLength value then Outcome.valid
  else
    let m := ratDisplay minLength
    Outcome.invalid s!"Minimum length is {m} characters." path

/-- `maxValidator` (default-message path). -/
def maxValidator (maxLength : ℚ) (value : JSValue) (path : String) : Outcome :=
  if maxLengthTest maxLength value then Outcome.valid
  else
    let m := ratDisplay maxLength
    Outcome.invalid s!"Maximum length is {m} characters." path

/-- `minMaxValidator` (default-message path). -/
def minMaxValidator (minLength maxLength : ℚ) (value : JSValue) (path : String) : Outcome :=
  if minMaxLengthTest minLength maxLength value then Outcome.valid
  else
    let lo := ratDisplay minLength
    let hi := ratDisplay maxLength
    Outcome.invalid s!"Length must be between {lo} and {hi} characters." path

/-- `booleanValidator` (default-message path): `value === true`. -/
def booleanValidator (value : JSValue) (path : String) : Outcome :=
  if jsStrictEq value (JSValue.boolean true) then Outcome.valid
  else Outcome.invalid "This field must be checked." path

/-- `minMaxValueNumberWithReferenceValidator` (default-message path): the
user test of the chain — when every condition matches, `Number(value)` must
lie in `[minValue, maxValue]`.  This models only the `min-value-with-reference`
test on the value the test receives; the surrounding number schema's cast and
nullability/type checks, which run before the test, are modelled by
`minMaxValueNumberWithReferenceNumberSchema` below. -/
def minMaxValueNumberWithReferenceValidator (minValue maxValue : ℚ)
    (conditions : List Condition) (value : JSValue) (parent : FormValues)
    (path : String) : Outcome :=
  let pass :=
    if conditionsHold conditions parent then
      (toNumber value).geQ minValue && (toNumber value).leQ maxValue
    else true
  if pass then Outcome.valid
  else
    let lo := ratDisplay minValue
    let hi := ratDisplay maxValue
    Outcome.invalid s!"Value must be between {lo} and {hi}." path

/-- `minValueNumberWithReferenceValidator` (default-message path): the user
test of the chain — when every condition matches, `Number(value)` must be at
least `minValue`.  As with the range variant, this models only the user test;
the number schema's cast and nullability/type checks are modelled by
`minValueNumberWithReferenceNumberSchema` below. -/
def minValueNumberWithReferenceValidator (minValue : ℚ)
    (conditions : List Condition) (value : JSValue) (parent : FormValues)
    (path : String) : Outcome :=
  let pass :=
    if conditionsHold conditions parent then (toNumber value).geQ minValue
    else true
  if pass then Outcome.valid
  else
    let lo := ratDisplay minValue
    Outcome.invalid s!"Value must be at least {lo}." path

/-- The template literal `Value must be greater than the value of "${ref}".`. -/
def greaterThanReferenceMessage (ref : String) : String :=
  "Value must be greater than the value of \"" ++ ref ++ "\"."

/-- The template literal `Value must not exceed ${maxLimit}.`. -/
def maxLimitExceededMessage (maxLimit : ℚ) : String :=
  "Value must not exceed " ++ ratDisplay maxLimit ++ "."

/-- `greaterThenValueWithReferenceValidator` (default-message path): when
every condition matches, `value > this.parent[ref]`. -/
def greaterThenValueWithReferenceValidator (ref : String)
    (conditions : List Condition) (value : JSValue) (parent : FormValues)
    (path : String) : Outcome :=
  let pass :=
    if conditionsHold conditions parent then jsGt value (lookupField parent ref)
    else true
  if pass then Outcome.valid
  else Outcome.invalid (greaterThanReferenceMessage ref) path

/-- `maxLimitAndgreaterThenValueWithReferenceValidator` (default-message
path): when every condition matches, first `value <= this.parent[ref]` fails
with the reference message, then a truthy `maxLimit` with `value > maxLimit`
fails with the ceiling message. -/
def maxLimitAndgreaterThenValueWithReferenceValidator (ref : String)
    (conditions : List Condition) (maxLimit : ℚ) (value : JSValue)
    (parent : FormValues) (path : String) : Outcome :=
  if conditionsHold conditions parent then
    if jsLe value (lookupField parent ref) then
      Outcome.invalid (greaterThanReferenceMessage ref) path
    else if decide (maxLimit ≠ 0) && jsGt value (JSValue.num (JSNumber.val maxLimit)) then
      Outcome.invalid (maxLimitExceededMessage maxLimit) path
    else Outcome.valid
  else Outcome.valid

/-- The `oneOf([yup.ref(ref)], msg)` membership test: an undefined value is
skipped by `oneOf`; otherwise the value must be strictly equal to the sibling
at `ref`. -/
def oneOfRefTest (ref : String) (value : JSValue) (parent : FormValues) : Bool :=
  value == JSValue.undef || jsStrictEq value (lookupField parent ref)

/-- `requiredValidator` (default-message path):
`nonNullable().required(msg).typeError(msg)`.  On already-cast values the
chain is valid exactly when the value is present: `nonNullable` rejects
`null`, `required` rejects `undefined` and, on the string-family schemas, the
empty string.  Which stage's message text surfaces (`notNull` vs `required`)
is not modelled; only validity is compared across the two paths. -/
def requiredValidator (value : JSValue) (path : String) : Outcome :=
  if isValueProvided value then Outcome.valid
  else Outcome.invalid "This field is required." path

/-- `requiredNullValue` (default-message path): the `non-empty` test rejects
`undefined`, `null` and `""` via `createError` with the required message; the
chain is then `.nullable().typeError(...)`. -/
def requiredNullValue (value : JSValue) (path : String) : Outcome :=
  if isValueProvided value then Outcome.valid
  else Outcome.invalid "This field is required." path

/-- `complexRequiredValidator` (default-message path): the chain only attaches
a `typeError` message to the base schema — it has no user test, so on an
already-cast value there is nothing to fail. -/
def complexRequiredValidator (_value : JSValue) (_path : String) : Outcome :=
  Outcome.valid

/-- `minWithReferenceValidator` (default-message path): the `min` length test,
then `oneOf([yup.ref(ref)])`, then `required`, in chain order. -/
def minWithReferenceValidator (minLength : ℚ) (ref : String) (value : JSValue)
    (parent : FormValues) (path : String) : Outcome :=
  if minLengthTest minLength value then
    if oneOfRefTest ref value parent then
      if isValueProvided value then Outcome.valid
      else Outcome.invalid "This field is required." path
    else Outcome.invalid "Values must match." path
  else
    let m := ratDisplay minLength
    Outcome.invalid s!"Minimum length is {m} characters." path

/-- `referenceValidator` (default-message path): `oneOf([yup.ref(ref)])` then
`required`, in chain order. -/
def referenceValidator (ref : String) (value : JSValue) (parent : FormValues)
    (path : String) : Outcome :=
  if oneOfRefTest ref value parent then
    if isValueProvided value then Outcome.valid
    else Outcome.invalid "This field is required." path
  else Outcome.invalid "Values must match." path

/-- Strip every whitespace character (`value.replace(/\s/g, "")` in the
number schema's transform). -/
def stripAllWhitespace (s : String) : String :=
  String.mk (s.toList.filter (fun c => !isJsSpace c))

/-- The Yup number schema's cast (transform): a string has all whitespace
removed and, if then empty, becomes `NaN`, otherwise is converted with unary
`+`; numbers and `null` pass through; `undefined` skips transforms entirely;
a boolean reaches the `parseFloat(String(value))` fallback, which yields
`NaN`. -/
def numberSchemaCast : JSValue → JSValue
  | .str s =>
    let t := stripAllWhitespace s
    if t = "" then JSValue.num JSNumber.nan else JSValue.num (stringToNumber t)
  | .num n => JSValue.num n
  | .boolean _ => JSValue.num JSNumber.nan
  | .null => JSValue.null
  | .undef => JSValue.undef

/-- The initial checks a non-nullable Yup number schema runs on the cast
value before any user test: `null` fails the nullability check and a value
that is not a (non-NaN) number fails the type check; `undefined` passes and
proceeds to the user tests.  Only validity is modelled for these failures;
the message text (`notNull` vs the chain's `typeError`) is not load-bearing,
so the chain's type-error message is used. -/
def numberSchemaInitialCheck (cast : JSValue) (path : String) : Option Outcome :=
  match cast with
  | .null => some (Outcome.invalid "Invalid format." path)
  | .undef => none
  | .num JSNumber.nan => some (Outcome.invalid "Invalid format." path)
  | .num _ => none
  | _ => some (Outcome.invalid "Invalid format." path)

/-- The full schema returned by `minMaxValueNumberWithReferenceValidator`
when built over the number schema, as `validate` runs it: cast the value,
run the nullability/type checks, and only then the user test (on the cast
value). -/
def minMaxValueNumberWithReferenceNumberSchema (minValue maxValue : ℚ)
    (conditions : List Condition) (value : JSValue) (parent : FormValues)
    (path : String) : Outcome :=
  let cast := numberSchemaCast value
  match numberSchemaInitialCheck cast path with
  | some err => err
  | none => minMaxValueNumberWithReferenceValidator minValue maxValue conditions cast parent path

/-- The full schema returned by `minValueNumberWithReferenceValidator` when
built over the number schema: cast, initial checks, then the user test. -/
def minValueNumberWithReferenceNumberSchema (minValue : ℚ)
    (conditions : List Condition) (value : JSValue) (parent : FormValues)
    (path : String) : Outcome :=
  let cast := numberSchemaCast value
  match numberSchemaInitialCheck cast path with
  | some err => err
  | none => minValueNumberWithReferenceValidator minValue conditions cast parent path

/-- Structural stage of `requiredDateValidator`: the regex
`^(\d{4})-(0[1-9]|1[0-2])-(0[1-9]|[1-2][0-9]|3[0-1])$`. -/
def dateRegexMatch (s : String) : Bool :=
  match s.toList with
  | [y1, y2, y3, y4, '-', m1, m2, '-', d1, d2] =>
    y1.isDigit && y2.isDigit && y3.isDigit && y4.isDigit &&
    ((m1 = '0' && '1' ≤ m2 && m2 ≤ '9') || (m1 = '1' && '0' ≤ m2 && m2 ≤ '2')) &&
    ((d1 = '0' && '1' ≤ d2 && d2 ≤ '9') ||
     ((d1 = '1' || d1 = '2') && d2.isDigit) ||
     (d1 = '3' && (d2 = '0' || d2 = '1')))
  | _ => false

def isLeapYear (y : Nat) : Bool :=
  (y % 4 = 0 && y % 100 ≠ 0) || y % 400 = 0

def daysInMonth (y m : Nat) : Nat :=
  if m = 2 then (if isLeapYear y then 29 else 28)
  else if m = 4 ∨ m = 6 ∨ m = 9 ∨ m = 11 then 30
  else 31

/-- `new Date(value)` on a `YYYY-MM-DD` string, per the ES date-time string
format: the components are read as a UTC calendar date; a month outside 01-12
or a day that does not exist in that month yields an invalid date (`none`).
Strings not of this exact shape fall back to engine-specific parsing; they
are mapped to `none` here, which is only consulted under the regex stage
(such strings can never round-trip to themselves anyway, since
`toISOString` always emits the zero-padded shape). -/
def jsDateParseISO (s : String) : Option (Nat × Nat × Nat) :=
  match s.toList with
  | [y1, y2, y3, y4, '-', m1, m2, '-', d1, d2] =>
    if y1.isDigit && y2.isDigit && y3.isDigit && y4.isDigit &&
       m1.isDigit && m2.isDigit && d1.isDigit && d2.isDigit then
      let y := natOfDigits [y1, y2, y3, y4]
      let m := natOfDigits [m1, m2]
      let d := natOfDigits [d1, d2]
      if 1 ≤ m ∧ m ≤ 12 ∧ 1 ≤ d ∧ d ≤ daysInMonth y m then some (y, m, d)
      else none
    else none
  | _ => none

def pad2 (n : Nat) : String :=
  if n < 10 then "0" ++ toString n else toString n

def pad4 (n : Nat) : String :=
  if n < 10 then "000" ++ toString n
  else if n < 100 then "00" ++ toString n
  else if n < 1000 then "0" ++ toString n
  else toString n

/-- `date.toISOString().split("T")[0]` for a UTC calendar date. -/
def toISODateString (y m d : Nat) : String :=
  pad4 y ++ "-" ++ pad2 m ++ "-" ++ pad2 d

/-- The `valid-date` test body of `requiredDateValidator`: reject a falsy
value, parse, require a real date and an exact round trip to the original
string. -/
def validDateTest (value : String) : Bool :=
  if value = "" then false
  else
    match jsDateParseISO value with
    | some (y, m, d) => toISODateString y m d == value
    | none => false

/-- `requiredDateValidator` (default-message path): the chain
`nonNullable().matches(regex).test("valid-date")` on a string value — valid
exactly when the regex stage and the round-trip stage both pass. -/
def requiredDateValidator (value : String) (path : String) : Outcome :=
  if dateRegexMatch value && validDateTest value then Outcome.valid
  else Outcome.invalid "Date must be in YYYY-MM-DD format." path

/-- The Yup base schema selected by `getValidationMethod`. -/
inductive YupBaseSchema where
  | stringSchema : YupBaseSchema
  | numberSchema : YupBaseSchema
  | arraySchema : YupBaseSchema
  | emailSchema : YupBaseSchema
  | dateSchema : YupBaseSchema
  | booleanSchema : YupBaseSchema
deriving DecidableEq, Repr

/-- `getValidationMethod`: the switch over the runtime type tag; the default
branch throws `Unsupported type` (modelled as `none`). -/
def getValidationMethod (type : String) : Option YupBaseSchema :=
  match type with
  | "string" => some YupBaseSchema.stringSchema
  | "number" => some YupBaseSchema.numberSchema
  | "array" => some YupBaseSchema.arraySchema
  | "email" => some YupBaseSchema.emailSchema
  | "date" => some YupBaseSchema.dateSchema
  | "boolean" => some YupBaseSchema.booleanSchema
  | _ => none

/-- The six supported `ValidatorType` tags. -/
def supportedValidatorTypes : List String :=
  ["string", "number", "array", "email", "date", "boolean"]

/-- The injected message lookup (`TFunction`): message key and interpolation
parameters to a localized string. -/
def Translate : Type := String → List (String × String) → String

/-- `s.replace(pat, repl)` with a string pattern: JS replaces only the first
occurrence. -/
def replaceFirst (s pat repl : String) : String :=
  match s.splitOn pat with
  | [] => s
  | [_] => s
  | x :: rest => x ++ repl ++ String.intercalate pat rest

/-- `formatStrings` from `utils.ts`: for each index, the first `{index}`
placeholder is replaced by the empty string (the translated lookup in the
source is commented out). -/
def formatStrings (str : String) (replaceValues : List String) : String :=
  replaceValues.enum.foldl
    (fun acc p => replaceFirst acc ("\x7b" ++ toString p.1 ++ "\x7d") "") str

namespace Translated

/-- `requiredWithReferenceValidator` (localized path). -/
def requiredWithReferenceValidator (translate : Translate)
    (conditions : List Condition) (value : JSValue) (parent : FormValues)
    (path : String) : Outcome :=
  if conditionsHold conditions parent then
    if isValueProvided value then Outcome.valid
    else Outcome.invalid (translate "validationMessages.required" []) path
  else Outcome.valid

/-- `minValidator` (localized path). -/
def minValidator (translate : Translate) (minLength : ℚ) (value : JSValue)
    (path : String) : Outcome :=
  if minLengthTest minLength value then Outcome.valid
  else
    Outcome.invalid
      (translate "validationMessages.string.min" [("minLength", ratDisplay minLength)]) path

/-- `maxValidator` (localized path). -/
def maxValidator (translate : Translate) (maxLength : ℚ) (value : JSValue)
    (path : String) : Outcome :=
  if maxLengthTest maxLength value then Outcome.valid
  else
    Outcome.invalid
      (translate "validationMessages.string.max" [("maxLength", ratDisplay maxLength)]) path

/-- `minMaxValidator` (localized path). -/
def minMaxValidator (translate : Translate) (minLength maxLength : ℚ)
    (value : JSValue) (path : String) : Outcome :=
  if minMaxLengthTest minLength maxLength value then Outcome.valid
  else
    Outcome.invalid
      (translate "validationMessages.string.minMax"
        [("minLength", ratDisplay minLength), ("maxLength", ratDisplay maxLength)]) path

/-- `booleanValidator` (localized path). -/
def booleanValidator (translate : Translate) (value : JSValue) (path : String) : Outcome :=
  if jsStrictEq value (JSValue.boolean true) then Outcome.valid
  else Outcome.invalid (translate "validationMessages.required" []) path

/-- `minMaxValueNumberWithReferenceValidator` (localized path): the user test
of the chain, as for its default-message twin; the number schema's cast and
nullability/type checks run before it and are modelled separately by the
`NumberSchema` pipeline. -/
def minMaxValueNumberWithReferenceValidator (translate : Translate)
    (minValue maxValue : ℚ) (conditions : List Condition) (value : JSValue)
    (parent : FormValues) (path : String) : Outcome :=
  let pass :=
    if conditionsHold conditions parent then
      (toNumber value).geQ minValue && (toNumber value).leQ maxValue
    else true
  if pass then Outcome.valid
  else
    Outcome.invalid
      (translate "validationMessages.number.minMaxValue"
        [("minValue", ratDisplay minValue), ("maxValue", ratDisplay maxValue)]) path

/-- `minValueNumberWithReferenceValidator` (localized path): the user test of
the chain, as for its default-message twin; the number schema's cast and
nullability/type checks run before it and are modelled separately by the
`NumberSchema` pipeline. -/
def minValueNumberWithReferenceValidator (translate : Translate) (minValue : ℚ)
    (conditions : List Condition) (value : JSValue) (parent : FormValues)
    (path : String) : Outcome :=
  let pass :=
    if conditionsHold conditions parent then (toNumber value).geQ minValue
    else true
  if pass then Outcome.valid
  else
    Outcome.invalid
      (translate "validationMessages.number.minValue" [("minValue", ratDisplay minValue)]) path

/-- `greaterThenValueWithReferenceValidator` (localized path). -/
def greaterThenValueWithReferenceValidator (translate : Translate) (ref : String)
    (conditions : List Condition) (value : JSValue) (parent : FormValues)
    (path : String) : Outcome :=
  let pass :=
    if conditionsHold conditions parent then jsGt value (lookupField parent ref)
    else true
  if pass then Outcome.valid
  else Outcome.invalid (translate "validationMessages.value.greaterThen" [("ref", ref)]) path

/-- `maxLimitAndgreaterThenValueWithReferenceValidator` (localized path). -/
def maxLimitAndgreaterThenValueWithReferenceValidator (translate : Translate)
    (ref : String) (conditions : List Condition) (maxLimit : ℚ) (value : JSValue)
    (parent : FormValues) (path : String) : Outcome :=
  if conditionsHold conditions parent then
    if jsLe value (lookupField parent ref) then
      Outcome.invalid (translate "validationMessages.value.greaterThen" [("ref", ref)]) path
    else if decide (maxLimit ≠ 0) && jsGt value (JSValue.num (JSNumber.val maxLimit)) then
      Outcome.invalid
        (translate "validationMessages.number.maxValue" [("maxValue", ratDisplay maxLimit)]) path
    else Outcome.valid
  else Outcome.valid

/-- `requiredDateValidator` (localized path). -/
def requiredDateValidator (translate : Translate) (value : String)
    (path : String) : Outcome :=
  if dateRegexMatch value && validDateTest value then Outcome.valid
  else
    Outcome.invalid
      (formatStrings (translate "validationMessages.invalid_date_format" []) ["YYYY-MM-DD"])
      path

/-- `requiredValidator` (localized path):
`nonNullable().required(translate(...)).typeError(translate(...))`; same
presence logic as the default-message twin. -/
def requiredValidator (translate : Translate) (value : JSValue) (path : String) : Outcome :=
  if isValueProvided value then Outcome.valid
  else Outcome.invalid (translate "validationMessages.required" []) path

/-- `requiredNullValue` (localized path): the `non-empty` test with the
translated required message, then `.nullable().typeError(...)`. -/
def requiredNullValue (translate : Translate) (value : JSValue) (path : String) : Outcome :=
  if isValueProvided value then Outcome.valid
  else Outcome.invalid (translate "validationMessages.required" []) path

/-- `complexRequiredValidator` (localized path): only a translated
`typeError` message on the base schema; no user test. -/
def complexRequiredValidator (_translate : Translate) (_value : JSValue)
    (_path : String) : Outcome :=
  Outcome.valid

/-- `minWithReferenceValidator` (localized path): `min` test, `oneOf` on the
reference, `required`, with translated messages. -/
def minWithReferenceValidator (translate : Translate) (minLength : ℚ) (ref : String)
    (value : JSValue) (parent : FormValues) (path : String) : Outcome :=
  if minLengthTest minLength value then
    if oneOfRefTest ref value parent then
      if isValueProvided value then Outcome.valid
      else Outcome.invalid (translate "validationMessages.required" []) path
    else Outcome.invalid (translate "validationMessages.mixed.oneOf" []) path
  else
    Outcome.invalid
      (translate "validationMessages.string.min" [("minLength", ratDisplay minLength)]) path

/-- `referenceValidator` (localized path): `oneOf` on the reference, then
`required`, with translated messages. -/
def referenceValidator (translate : Translate) (ref : String) (value : JSValue)
    (parent : FormValues) (path : String) : Outcome :=
  if oneOfRefTest ref value parent then
    if isValueProvided value then Outcome.valid
    else Outcome.invalid (translate "validationMessages.required" []) path
  else Outcome.invalid (translate "validationMessages.mixed.oneOf" []) path

end Translated

/-- The catalog of constructed rules (the default-message construction path),
each carrying the constraint parameters fixed at schema-definition time. -/
inductive Rule where
  | requiredIf (conditions : List Condition) : Rule
  | lengthAtLeast (minLength : ℚ) : Rule
  | lengthAtMost (maxLength : ℚ) : Rule
  | lengthBetween (minLength maxLength : ℚ) : Rule
  | mustBeTrue : Rule
  | numberInRangeIf (minValue maxValue : ℚ) (conditions : List Condition) : Rule
  | numberAtLeastIf (minValue : ℚ) (conditions : List Condition) : Rule
  | greaterThanReferenceIf (ref : String) (conditions : List Condition) : Rule
  | greaterThanReferenceIfMax (ref : String) (conditions : List Condition) (maxLimit : ℚ) : Rule
  | requiredDate : Rule
deriving DecidableEq, Repr

/-- Evaluate a rule against the field value and the sibling snapshot.  The
date rule runs on the string cast of the value (the Yup string schema casts
primitives via `String(...)`); an absent value is rejected by the
`nonNullable` / `valid-date` stages. -/
def evaluate (rule : Rule) (value : JSValue) (parent : FormValues)
    (path : String) : Outcome :=
  match rule with
  | .requiredIf conditions => requiredWithReferenceValidator conditions value parent path
  | .lengthAtLeast minLength => minValidator minLength value path
  | .lengthAtMost maxLength => maxValidator maxLength value path
  | .lengthBetween minLength maxLength => minMaxValidator minLength maxLength value path
  | .mustBeTrue => booleanValidator value path
  | .numberInRangeIf minValue maxValue conditions =>
    minMaxValueNumberWithReferenceValidator minValue maxValue conditions value parent path
  | .numberAtLeastIf minValue conditions =>
    minValueNumberWithReferenceValidator minValue conditions value parent path
  | .greaterThanReferenceIf ref conditions =>
    greaterThenValueWithReferenceValidator ref conditions value parent path
  | .greaterThanReferenceIfMax ref conditions maxLimit =>
    maxLimitAndgreaterThenValueWithReferenceValidator ref conditions maxLimit value parent path
  | .requiredDate =>
    match value with
    | .null => Outcome.invalid "Date must be in YYYY-MM-DD format." path
    | .undef => Outcome.invalid "Date must be in YYYY-MM-DD format." path
    | v => requiredDateValidator (jsToString v) path

lemma isValid_if (b : Bool) (m p : String) :
    (if b then Outcome.valid else Outcome.invalid m p).isValid = b := by
  cases b <;> simp [Outcome.isValid]

lemma conditionsHold_eq_false_of_unmet {conditions : List Condition} {parent : FormValues}
    (h : ∃ c ∈ conditions, jsStrictEq (lookupField parent c.fieldName) c.expectedValue = false) :
    conditionsHold conditions parent = false := by
  obtain ⟨c, hc, hne⟩ := h
  unfold conditionsHold
  rw [List.all_eq_false]
  exact ⟨c, hc, by simp [hne]⟩

lemma jsLe_eq_false_of_jsGt {a b : JSValue} (h : jsGt a b = true) : jsLe a b = false := by
  unfold jsGt at h
  unfold jsLe
  cases hr : jsLtOpt b a with
  | none => simp only [hr] at h; exact Bool.noConfusion h
  | some r => simp only [hr] at h; simp [h]

lemma conditionsHold_ext (conditions : List Condition) (p₁ p₂ : FormValues)
    (h : ∀ name, lookupField p₁ name = lookupField p₂ name) :
    conditionsHold conditions p₁ = conditionsHold conditions p₂ := by
  unfold conditionsHold
  congr 1
  funext c
  rw [h]

/-- C1: `requiredDateValidator` is Valid on a string exactly when the
structural regex stage (four-digit year, month 01-12, day 01-31 in
`YYYY-MM-DD`) and the round-trip stage (the value parses to a real calendar
date whose canonical re-serialization equals the original string) both
succeed; `"2024-02-29"` is Valid while `"2023-02-29"`, `"2024-13-01"` and
`"2024-02-9"` are each Invalid. -/
theorem requiredDate_two_stage_check :
    (∀ (s path : String),
      requiredDateValidator s path = Outcome.valid ↔
        (dateRegexMatch s = true ∧ validDateTest s = true)) ∧
    (∀ path, requiredDateValidator "2024-02-29" path = Outcome.valid) ∧
    (∀ path, requiredDateValidator "2023-02-29" path =
      Outcome.invalid "Date must be in YYYY-MM-DD format." path) ∧
    (∀ path, requiredDateValidator "2024-13-01" path =
      Outcome.invalid "Date must be in YYYY-MM-DD format." path) ∧
    (∀ path, requiredDateValidator "2024-02-9" path =
      Outcome.invalid "Date must be in YYYY-MM-DD format." path) := by
  refine ⟨?_, ?_, ?_, ?_, ?_⟩
  · intro s path
    unfold requiredDateValidator
    cases h1 : dateRegexMatch s <;> cases h2 : validDateTest s <;> simp [h1, h2]
  · intro path; rfl
  · intro path; rfl
  · intro path; rfl
  · intro path; rfl

/-- C6: `getValidationMethod` returns a schema for each of the six supported
type tags and hits the throwing default branch for every other tag. -/
theorem getValidationMethod_unsupported_throws :
    (∀ type : String, type ∉ supportedValidatorTypes → getValidationMethod type = none) ∧
    (∀ type ∈ supportedValidatorTypes, (getValidationMethod type).isSome = true) := by
  constructor
  · intro t h
    simp only [supportedValidatorTypes, List.mem_cons, List.not_mem_nil, or_false, not_or] at h
    unfold getValidationMethod
    split <;> simp_all
  · intro t h
    fin_cases h <;> rfl

/-- C6 witness: `"object"` is rejected at construction time; `"string"` is
accepted. -/
theorem getValidationMethod_unsupported_throws_witness :
    getValidationMethod "object" = none ∧ (getValidationMethod "string").isSome = true :=
  ⟨getValidationMethod_unsupported_throws.1 "object" (by decide),
   getValidationMethod_unsupported_throws.2 "string" (by decide)⟩

/-- C9: with `maxLimit = 0` (a falsy number) the ceiling branch of
`maxLimitAndgreaterThenValueWithReferenceValidator` is disabled: whenever
the conditions hold and the value is strictly greater than the sibling at
`ref`, the outcome is Valid no matter how large the value is. -/
theorem maxLimit_zero_disables_ceiling :
    ∀ (ref : String) (conditions : List Condition) (value : JSValue)
      (parent : FormValues) (path : String),
      conditionsHold conditions parent = true →
      jsGt value (lookupField parent ref) = true →
      maxLimitAndgreaterThenValueWithReferenceValidator ref conditions 0 value parent path =
        Outcome.valid := by
  intro ref conditions value parent path hcond hgt
  have hle := jsLe_eq_false_of_jsGt hgt
  simp [maxLimitAndgreaterThenValueWithReferenceValidator, hcond, hle]

/-- C9 witness: value 1000000 against sibling `minAge = 18` with
`maxLimit = 0` is Valid. -/
theorem maxLimit_zero_disables_ceiling_witness :
    maxLimitAndgreaterThenValueWithReferenceValidator "minAge" []
      0 (JSValue.num (JSNumber.val 1000000))
      [("minAge", JSValue.num (JSNumber.val 18))] "maxAge" = Outcome.valid :=
  maxLimit_zero_disables_ceiling "minAge" [] (JSValue.num (JSNumber.val 1000000))
    [("minAge", JSValue.num (JSNumber.val 18))] "maxAge" (by decide) (by decide)

/-- C2: for `greaterThanReferenceIf` with a maxLimit, when every condition
matches: a value less than or equal to the sibling at `ref` yields Invalid
with the reference-violation message (even if it also exceeds the ceiling);
only a strictly greater value reaches the ceiling check, and one above a
truthy `maxLimit` yields Invalid with the max-limit message.  With
`maxLimit = 65` over `{minAge: 18}`: value 18 is Invalid with the reference
message, 70 is Invalid with the ceiling message (not the reference message),
and 40 is Valid. -/
theorem greaterThanReferenceIf_maxLimit_ordering :
    (∀ (ref : String) (conditions : List Condition) (maxLimit : ℚ) (value : JSValue)
        (parent : FormValues) (path : String),
      conditionsHold conditions parent = true →
      jsLe value (lookupField parent ref) = true →
      maxLimitAndgreaterThenValueWithReferenceValidator ref conditions maxLimit value parent path =
        Outcome.invalid (greaterThanReferenceMessage ref) path) ∧
    (∀ (ref : String) (conditions : List Condition) (maxLimit : ℚ) (value : JSValue)
        (parent : FormValues) (path : String),
      conditionsHold conditions parent = true →
      jsLe value (lookupField parent ref) = false →
      maxLimit ≠ 0 →
      jsGt value (JSValue.num (JSNumber.val maxLimit)) = true →
      maxLimitAndgreaterThenValueWithReferenceValidator ref conditions maxLimit value parent path =
        Outcome.invalid (maxLimitExceededMessage maxLimit) path) ∧
    (maxLimitAndgreaterThenValueWithReferenceValidator "minAge" [] 65
        (JSValue.num (JSNumber.val 18)) [("minAge", JSValue.num (JSNumber.val 18))] "maxAge" =
      Outcome.invalid "Value must be greater than the value of \"minAge\"." "maxAge") ∧
    (maxLimitAndgreaterThenValueWithReferenceValidator "minAge" [] 65
        (JSValue.num (JSNumber.val 70)) [("minAge", JSValue.num (JSNumber.val 18))] "maxAge" =
      Outcome.invalid "Value must not exceed 65." "maxAge") ∧
    (maxLimitAndgreaterThenValueWithReferenceValidator "minAge" [] 65
        (JSValue.num (JSNumber.val 40)) [("minAge", JSValue.num (JSNumber.val 18))] "maxAge" =
      Outcome.valid) := by
  refine ⟨?_, ?_, by decide, by decide, by decide⟩
  · intro ref conditions maxLimit value parent path hcond hle
    simp [maxLimitAndgreaterThenValueWithReferenceValidator, hcond, hle]
  · intro ref conditions maxLimit value parent path hcond hle hmax hgt
    simp [maxLimitAndgreaterThenValueWithReferenceValidator, hcond, hle, hmax, hgt]

/-- C2 witness: both checks violated at once (`maxLimit = 5` below the
reference 18, value 10 is above the ceiling yet not above the reference)
surfaces only the reference-violation message. -/
theorem greaterThanReferenceIf_maxLimit_ordering_witness :
    maxLimitAndgreaterThenValueWithReferenceValidator "minAge" [] 5
      (JSValue.num (JSNumber.val 10)) [("minAge", JSValue.num (JSNumber.val 18))] "maxAge" =
      Outcome.invalid (greaterThanReferenceMessage "minAge") "maxAge" :=
  greaterThanReferenceIf_maxLimit_ordering.1 "minAge" [] 5
    (JSValue.num (JSNumber.val 10)) [("minAge", JSValue.num (JSNumber.val 18))] "maxAge"
    (by decide) (by decide)

/-- C3: every conditional rule is a no-op (Valid) on any snapshot in which
some condition pair's sibling value is not strictly equal to the expected
value, whatever the field's own value; and the empty condition set is
always satisfied, so the check always applies. -/
theorem conditional_rules_noop_when_unmet :
    (∀ (conditions : List Condition) (parent : FormValues),
      (∃ c ∈ conditions,
        jsStrictEq (lookupField parent c.fieldName) c.expectedValue = false) →
      ∀ (value : JSValue) (path ref : String) (minValue maxValue maxLimit : ℚ),
        requiredWithReferenceValidator conditions value parent path = Outcome.valid ∧
        minMaxValueNumberWithReferenceValidator minValue maxValue conditions value parent path =
          Outcome.valid ∧
        minValueNumberWithReferenceValidator minValue conditions value parent path =
          Outcome.valid ∧
        greaterThenValueWithReferenceValidator ref conditions value parent path =
          Outcome.valid ∧
        maxLimitAndgreaterThenValueWithReferenceValidator ref conditions maxLimit value parent path =
          Outcome.valid) ∧
    (∀ parent : FormValues, conditionsHold [] parent = true) := by
  constructor
  · intro conditions parent h value path ref minValue maxValue maxLimit
    have hf := conditionsHold_eq_false_of_unmet h
    refine ⟨?_, ?_, ?_, ?_, ?_⟩
    · simp [requiredWithReferenceValidator, hf]
    · simp [minMaxValueNumberWithReferenceValidator, hf]
    · simp [minValueNumberWithReferenceValidator, hf]
    · simp [greaterThenValueWithReferenceValidator, hf]
    · simp [maxLimitAndgreaterThenValueWithReferenceValidator, hf]
  · intro parent
    rfl

/-- C3 witness: with `role = "user"` expected to be `"admin"`, every
conditional rule is Valid even for an absent value; the empty condition set
holds over the empty snapshot. -/
theorem conditional_rules_noop_when_unmet_witness :
    (requiredWithReferenceValidator [⟨"role", JSValue.str "admin"⟩] JSValue.undef
        [("role", JSValue.str "user")] "f" = Outcome.valid) ∧
    conditionsHold [] [] = true :=
  ⟨(conditional_rules_noop_when_unmet.1 [⟨"role", JSValue.str "admin"⟩]
      [("role", JSValue.str "user")]
      ⟨⟨"role", JSValue.str "admin"⟩, by decide, by decide⟩
      JSValue.undef "f" "r" 0 0 0).1,
   conditional_rules_noop_when_unmet.2 []⟩

/-- C4: `requiredIf` — when every condition pair matches, an empty value
(`undefined`, `null` or `""`) is Invalid with the required message at the
field's path and any non-empty value is Valid; when some pair does not
match, even an empty value is Valid. -/
theorem requiredIf_required_semantics :
    ∀ (conditions : List Condition) (value : JSValue) (parent : FormValues) (path : String),
      (conditionsHold conditions parent = true →
        (value = JSValue.undef ∨ value = JSValue.null ∨ value = JSValue.str "") →
        requiredWithReferenceValidator conditions value parent path =
          Outcome.invalid "This field is required." path) ∧
      (conditionsHold conditions parent = true →
        value ≠ JSValue.undef → value ≠ JSValue.null → value ≠ JSValue.str "" →
        requiredWithReferenceValidator conditions value parent path = Outcome.valid) ∧
      (conditionsHold conditions parent = false →
        requiredWithReferenceValidator conditions value parent path = Outcome.valid) := by
  intro conditions value parent path
  refine ⟨?_, ?_, ?_⟩
  · intro hc hempty
    have hp : isValueProvided value = false := by
      rcases hempty with h | h | h <;> subst h <;> rfl
    simp [requiredWithReferenceValidator, hc, hp]
  · intro hc h1 h2 h3
    have hp : isValueProvided value = true := by
      simp [isValueProvided, h1, h2, h3]
    simp [requiredWithReferenceValidator, hc, hp]
  · intro hc
    simp [requiredWithReferenceValidator, hc]

/-- C4 witness: with `role = "admin"` required, the empty string is Invalid
and `"x"` is Valid; with `role = "user"` the empty string is Valid. -/
theorem requiredIf_required_semantics_witness :
    (requiredWithReferenceValidator [⟨"role", JSValue.str "admin"⟩] (JSValue.str "")
        [("role", JSValue.str "admin")] "f" =
      Outcome.invalid "This field is required." "f") ∧
    (requiredWithReferenceValidator [⟨"role", JSValue.str "admin"⟩] (JSValue.str "x")
        [("role", JSValue.str "admin")] "f" = Outcome.valid) ∧
    (requiredWithReferenceValidator [⟨"role", JSValue.str "admin"⟩] (JSValue.str "")
        [("role", JSValue.str "user")] "f" = Outcome.valid) :=
  ⟨(requiredIf_required_semantics [⟨"role", JSValue.str "admin"⟩] (JSValue.str "")
      [("role", JSValue.str "admin")] "f").1 (by decide) (Or.inr (Or.inr rfl)),
   (requiredIf_required_semantics [⟨"role", JSValue.str "admin"⟩] (JSValue.str "x")
      [("role", JSValue.str "admin")] "f").2.1 (by decide)
      (by decide) (by decide) (by decide),
   (requiredIf_required_semantics [⟨"role", JSValue.str "admin"⟩] (JSValue.str "")
      [("role", JSValue.str "user")] "f").2.2 (by decide)⟩

/-- C5: the length rules compare `String(value).length` against the bounds —
`lengthBetween 3 6` accepts every string of length 3 through 6 and rejects
`"ab"` and `"abcdefg"` — and each length rule maps an absent value
(`undefined` or `null`) to Invalid rather than Valid. -/
theorem length_rules_semantics :
    (∀ (s path : String), 3 ≤ s.length → s.length ≤ 6 →
      minMaxValidator 3 6 (JSValue.str s) path = Outcome.valid) ∧
    (∀ path, minMaxValidator 3 6 (JSValue.str "ab") path ≠ Outcome.valid) ∧
    (∀ path, minMaxValidator 3 6 (JSValue.str "abcdefg") path ≠ Outcome.valid) ∧
    (∀ (minLength : ℚ) (path : String),
      (minValidator minLength JSValue.undef path).isValid = false ∧
      (minValidator minLength JSValue.null path).isValid = false) ∧
    (∀ (maxLength : ℚ) (path : String),
      (maxValidator maxLength JSValue.undef path).isValid = false ∧
      (maxValidator maxLength JSValue.null path).isValid = false) ∧
    (∀ (minLength maxLength : ℚ) (path : String),
      (minMaxValidator minLength maxLength JSValue.undef path).isValid = false ∧
      (minMaxValidator minLength maxLength JSValue.null path).isValid = false) := by
  refine ⟨?_, ?_, ?_, ?_, ?_, ?_⟩
  · intro s path h1 h2
    have hlo : (3 : ℚ) ≤ (s.length : ℚ) := by exact_mod_cast h1
    have hhi : ((s.length : ℚ)) ≤ 6 := by exact_mod_cast h2
    simp [minMaxValidator, minMaxLengthTest, jsToString, hlo, hhi]
  · intro path
    simp [minMaxValidator, minMaxLengthTest, jsToString]
    decide
  · intro path
    simp [minMaxValidator, minMaxLengthTest, jsToString]
    decide
  · intro minLength path
    exact ⟨rfl, rfl⟩
  · intro maxLength path
    exact ⟨rfl, rfl⟩
  · intro minLength maxLength path
    exact ⟨rfl, rfl⟩

/-- C5 witness: `"abc"` and `"abcdef"` are accepted by `lengthBetween 3 6`;
`undefined` is rejected by `lengthAtLeast 3`. -/
theorem length_rules_semantics_witness :
    (minMaxValidator 3 6 (JSValue.str "abc") "f" = Outcome.valid) ∧
    (minMaxValidator 3 6 (JSValue.str "abcdef") "f" = Outcome.valid) ∧
    (minValidator 3 JSValue.undef "f").isValid = false :=
  ⟨length_rules_semantics.1 "abc" "f" (by decide) (by decide),
   length_rules_semantics.1 "abcdef" "f" (by decide) (by decide),
   (length_rules_semantics.2.2.2.1 3 "f").1⟩

/-- C7: every combinator present in both construction paths — all fifteen
exports shared by `validators.ts` and `validators-with-translation.ts` —
shares its validity logic: for every message lookup and every input, the
localized rule is Valid exactly when the default-message rule is. -/
theorem translation_path_equivalence :
    ∀ (translate : Translate) (value : JSValue) (parent : FormValues)
      (conditions : List Condition) (lo hi limit : ℚ) (ref s path : String),
      ((Translated.requiredWithReferenceValidator translate conditions value parent path).isValid =
        (requiredWithReferenceValidator conditions value parent path).isValid) ∧
      ((Translated.minValidator translate lo value path).isValid =
        (minValidator lo value path).isValid) ∧
      ((Translated.maxValidator translate hi value path).isValid =
        (maxValidator hi value path).isValid) ∧
      ((Translated.minMaxValidator translate lo hi value path).isValid =
        (minMaxValidator lo hi value path).isValid) ∧
      ((Translated.booleanValidator translate value path).isValid =
        (booleanValidator value path).isValid) ∧
      ((Translated.minMaxValueNumberWithReferenceValidator translate lo hi conditions value parent path).isValid =
        (minMaxValueNumberWithReferenceValidator lo hi conditions value parent path).isValid) ∧
      ((Translated.minValueNumberWithReferenceValidator translate lo conditions value parent path).isValid =
        (minValueNumberWithReferenceValidator lo conditions value parent path).isValid) ∧
      ((Translated.greaterThenValueWithReferenceValidator translate ref conditions value parent path).isValid =
        (greaterThenValueWithReferenceValidator ref conditions value parent path).isValid) ∧
      ((Translated.maxLimitAndgreaterThenValueWithReferenceValidator translate ref conditions limit value parent path).isValid =
        (maxLimitAndgreaterThenValueWithReferenceValidator ref conditions limit value parent path).isValid) ∧
      ((Translated.requiredDateValidator translate s path).isValid =
        (requiredDateValidator s path).isValid) ∧
      ((Translated.requiredValidator translate value path).isValid =
        (requiredValidator value path).isValid) ∧
      ((Translated.requiredNullValue translate value path).isValid =
        (requiredNullValue value path).isValid) ∧
      ((Translated.complexRequiredValidator translate value path).isValid =
        (complexRequiredValidator value path).isValid) ∧
      ((Translated.minWithReferenceValidator translate lo ref value parent path).isValid =
        (minWithReferenceValidator lo ref value parent path).isValid) ∧
      ((Translated.referenceValidator translate ref value parent path).isValid =
        (referenceValidator ref value parent path).isValid) := by
  intro translate value parent conditions lo hi limit ref s path
  refine ⟨?_, ?_, ?_, ?_, ?_, ?_, ?_, ?_, ?_, ?_, ?_, ?_, ?_, ?_, ?_⟩
  · cases h1 : conditionsHold conditions parent <;> cases h2 : isValueProvided value <;>
      simp [Translated.requiredWithReferenceValidator, requiredWithReferenceValidator,
        h1, h2, Outcome.isValid]
  · cases h : minLengthTest lo value <;>
      simp [Translated.minValidator, minValidator, h, Outcome.isValid]
  · cases h : maxLengthTest hi value <;>
      simp [Translated.maxValidator, maxValidator, h, Outcome.isValid]
  · cases h : minMaxLengthTest lo hi value <;>
      simp [Translated.minMaxValidator, minMaxValidator, h, Outcome.isValid]
  · cases h : jsStrictEq value (JSValue.boolean true) <;>
      simp [Translated.booleanValidator, booleanValidator, h, Outcome.isValid]
  · unfold Translated.minMaxValueNumberWithReferenceValidator
      minMaxValueNumberWithReferenceValidator
    cases h1 : conditionsHold conditions parent <;>
      cases h2 : (toNumber value).geQ lo && (toNumber value).leQ hi <;>
      simp [h1, h2, Outcome.isValid]
  · unfold Translated.minValueNumberWithReferenceValidator
      minValueNumberWithReferenceValidator
    cases h1 : conditionsHold conditions parent <;>
      cases h2 : (toNumber value).geQ lo <;>
      simp [h1, h2, Outcome.isValid]
  · unfold Translated.greaterThenValueWithReferenceValidator
      greaterThenValueWithReferenceValidator
    cases h1 : conditionsHold conditions parent <;>
      cases h2 : jsGt value (lookupField parent ref) <;>
      simp [h1, h2, Outcome.isValid]
  · unfold Translated.maxLimitAndgreaterThenValueWithReferenceValidator
      maxLimitAndgreaterThenValueWithReferenceValidator
    cases h1 : conditionsHold conditions parent <;>
      cases h2 : jsLe value (lookupField parent ref) <;>
      cases h3 : decide (limit ≠ 0) && jsGt value (JSValue.num (JSNumber.val limit)) <;>
      simp [h1, h2, h3, Outcome.isValid]
  · cases h : dateRegexMatch s && validDateTest s <;>
      simp [Translated.requiredDateValidator, requiredDateValidator, h, Outcome.isValid]
  · cases h : isValueProvided value <;>
      simp [Translated.requiredValidator, requiredValidator, h, Outcome.isValid]
  · cases h : isValueProvided value <;>
      simp [Translated.requiredNullValue, requiredNullValue, h, Outcome.isValid]
  · rfl
  · unfold Translated.minWithReferenceValidator minWithReferenceValidator
    cases h1 : minLengthTest lo value <;>
      cases h2 : oneOfRefTest ref value parent <;>
      cases h3 : isValueProvided value <;>
      simp [h1, h2, h3, Outcome.isValid]
  · unfold Translated.referenceValidator referenceValidator
    cases h1 : oneOfRefTest ref value parent <;>
      cases h2 : isValueProvided value <;>
      simp [h1, h2, Outcome.isValid]

/-- C8: rule evaluation is a pure function of the value and the snapshot —
evaluating twice against identical inputs yields the identical outcome, and
the outcome depends on the snapshot only through the field lookups it
performs (no hidden mutable state). -/
theorem rule_evaluation_pure :
    (∀ (r : Rule) (value : JSValue) (parent : FormValues) (path : String),
      evaluate r value parent path = evaluate r value parent path) ∧
    (∀ (r : Rule) (value : JSValue) (p₁ p₂ : FormValues) (path : String),
      (∀ name, lookupField p₁ name = lookupField p₂ name) →
      evaluate r value p₁ path = evaluate r value p₂ path) := by
  constructor
  · intro r value parent path
    rfl
  · intro r value p₁ p₂ path h
    cases r with
    | requiredIf conditions =>
      simp only [evaluate, requiredWithReferenceValidator,
        conditionsHold_ext conditions p₁ p₂ h]
    | lengthAtLeast m => rfl
    | lengthAtMost m => rfl
    | lengthBetween m n => rfl
    | mustBeTrue => rfl
    | numberInRangeIf lo hi conditions =>
      simp only [evaluate, minMaxValueNumberWithReferenceValidator,
        conditionsHold_ext conditions p₁ p₂ h]
    | numberAtLeastIf lo conditions =>
      simp only [evaluate, minValueNumberWithReferenceValidator,
        conditionsHold_ext conditions p₁ p₂ h]
    | greaterThanReferenceIf ref conditions =>
      simp only [evaluate, greaterThenValueWithReferenceValidator,
        conditionsHold_ext conditions p₁ p₂ h, h ref]
    | greaterThanReferenceIfMax ref conditions limit =>
      simp only [evaluate, maxLimitAndgreaterThenValueWithReferenceValidator,
        conditionsHold_ext conditions p₁ p₂ h, h ref]
    | requiredDate => rfl

/-- C8 witness: a conditional rule evaluated over two extensionally equal
snapshots yields the same outcome. -/
theorem rule_evaluation_pure_witness :
    evaluate (Rule.requiredIf [⟨"role", JSValue.str "admin"⟩]) (JSValue.str "x")
      [("role", JSValue.str "admin")] "f" =
      evaluate (Rule.requiredIf [⟨"role", JSValue.str "admin"⟩]) (JSValue.str "x")
        [("role", JSValue.str "admin")] "f" :=
  rule_evaluation_pure.2 (Rule.requiredIf [⟨"role", JSValue.str "admin"⟩])
    (JSValue.str "x") [("role", JSValue.str "admin")]
    [("role", JSValue.str "admin")] "f" (fun _ => rfl)

lemma minMaxValueNumber_isValid (minValue maxValue : ℚ) (conditions : List Condition)
    (value : JSValue) (parent : FormValues) (path : String)
    (hc : conditionsHold conditions parent = true) :
    (minMaxValueNumberWithReferenceValidator minValue maxValue conditions value parent path).isValid =
      ((toNumber value).geQ minValue && (toNumber value).leQ maxValue) := by
  unfold minMaxValueNumberWithReferenceValidator
  rw [hc]
  cases h : (toNumber value).geQ minValue && (toNumber value).leQ maxValue <;>
    simp [h, Outcome.isValid]

lemma minValueNumber_isValid (minValue : ℚ) (conditions : List Condition)
    (value : JSValue) (parent : FormValues) (path : String)
    (hc : conditionsHold conditions parent = true) :
    (minValueNumberWithReferenceValidator minValue conditions value parent path).isValid =
      (toNumber value).geQ minValue := by
  unfold minValueNumberWithReferenceValidator
  rw [hc]
  cases h : (toNumber value).geQ minValue <;> simp [h, Outcome.isValid]

/-- C10 counterexample: with `numberAtLeastIf 0` and `numberInRangeIf 0 10`
over a satisfied (empty) condition set, the bound is satisfied by 0, yet
`null` and the empty string are Invalid — the number schema's
nullability/type checks reject them before the coercing user test runs,
refuting "Valid exactly when 0 satisfies the bound(s)". -/
theorem conditional_number_rules_coercion_counterexample :
    ((0 : ℚ) ≤ 0 ∧ (0 : ℚ) ≤ 10) ∧
    conditionsHold [] [] = true ∧
    (minValueNumberWithReferenceNumberSchema 0 [] JSValue.null [] "f").isValid = false ∧
    (minValueNumberWithReferenceNumberSchema 0 [] (JSValue.str "") [] "f").isValid = false ∧
    (minMaxValueNumberWithReferenceNumberSchema 0 10 [] JSValue.null [] "f").isValid = false ∧
    (minMaxValueNumberWithReferenceNumberSchema 0 10 [] (JSValue.str "") [] "f").isValid = false :=
  ⟨⟨le_refl 0, by norm_num⟩, rfl, rfl, rfl, rfl, rfl⟩

/-- C10 (amended): the conditional numeric rules coerce with `Number(...)`
inside their test, but the surrounding non-nullable number schema rejects
`null` (nullability check) and the empty string (cast to `NaN`, type check)
before the test runs, so when the conditions hold `null` and `""` are always
Invalid regardless of the bounds; `undefined` skips the cast, reaches the
test, coerces to `NaN` and is Invalid; a string whose whitespace-stripped
form is not a numeric literal casts to `NaN` and is likewise always
Invalid. -/
theorem conditional_number_rules_schema_rejection :
    ∀ (minValue maxValue : ℚ) (conditions : List Condition) (parent : FormValues)
      (path : String),
      conditionsHold conditions parent = true →
      ((minMaxValueNumberWithReferenceNumberSchema minValue maxValue conditions
          JSValue.null parent path).isValid = false) ∧
      ((minMaxValueNumberWithReferenceNumberSchema minValue maxValue conditions
          (JSValue.str "") parent path).isValid = false) ∧
      ((minMaxValueNumberWithReferenceNumberSchema minValue maxValue conditions
          JSValue.undef parent path).isValid = false) ∧
      (∀ s : String, stringToNumber (stripAllWhitespace s) = JSNumber.nan →
        (minMaxValueNumberWithReferenceNumberSchema minValue maxValue conditions
          (JSValue.str s) parent path).isValid = false) ∧
      ((minValueNumberWithReferenceNumberSchema minValue conditions
          JSValue.null parent path).isValid = false) ∧
      ((minValueNumberWithReferenceNumberSchema minValue conditions
          (JSValue.str "") parent path).isValid = false) ∧
      ((minValueNumberWithReferenceNumberSchema minValue conditions
          JSValue.undef parent path).isValid = false) ∧
      (∀ s : String, stringToNumber (stripAllWhitespace s) = JSNumber.nan →
        (minValueNumberWithReferenceNumberSchema minValue conditions
          (JSValue.str s) parent path).isValid = false) := by
  intro minValue maxValue conditions parent path hc
  refine ⟨rfl, rfl, ?_, ?_, rfl, rfl, ?_, ?_⟩
  · show (minMaxValueNumberWithReferenceValidator minValue maxValue conditions
      JSValue.undef parent path).isValid = false
    rw [minMaxValueNumber_isValid minValue maxValue conditions JSValue.undef parent path hc]
    rfl
  · intro s hv
    unfold minMaxValueNumberWithReferenceNumberSchema numberSchemaCast
    by_cases h : stripAllWhitespace s = ""
    · simp [h, numberSchemaInitialCheck, Outcome.isValid]
    · simp [h, hv, numberSchemaInitialCheck, Outcome.isValid]
  · show (minValueNumberWithReferenceValidator minValue conditions
      JSValue.undef parent path).isValid = false
    rw [minValueNumber_isValid minValue conditions JSValue.undef parent path hc]
    rfl
  · intro s hv
    unfold minValueNumberWithReferenceNumberSchema numberSchemaCast
    by_cases h : stripAllWhitespace s = ""
    · simp [h, numberSchemaInitialCheck, Outcome.isValid]
    · simp [h, hv, numberSchemaInitialCheck, Outcome.isValid]

/-- C10 witness: with bounds containing 0 and the empty condition set,
`null` is Invalid under `numberInRangeIf 0 10`, `undefined` is Invalid under
`numberInRangeIf 0 10`, and the non-numeric string `"abc"` is Invalid under
`numberAtLeastIf 0`. -/
theorem conditional_number_rules_schema_rejection_witness :
    ((minMaxValueNumberWithReferenceNumberSchema 0 10 [] JSValue.null [] "f").isValid = false) ∧
    ((minMaxValueNumberWithReferenceNumberSchema 0 10 [] JSValue.undef [] "f").isValid = false) ∧
    ((minValueNumberWithReferenceNumberSchema 0 [] (JSValue.str "abc") [] "f").isValid = false) :=
  ⟨(conditional_number_rules_schema_rejection 0 10 [] [] "f" rfl).1,
   (conditional_number_rules_schema_rejection 0 10 [] [] "f" rfl).2.2.1,
   (conditional_number_rules_schema_rejection 0 10 [] [] "f" rfl).2.2.2.2.2.2.2 "abc"
     (by decide)⟩

end Validation
